import Mathlib

/-!
Verification of the lite-llm core components against their specification:
the Hardware Prober and validation pass (internal/system/checker.go),
the Metrics Sampler (internal/monitor), and the Inference-Server Client
(internal/ollama/client.go).  Go string and integer primitives are
embedded as executable Lean functions over `List Char`, `Nat`, `Int`
and `ℚ`; machine-integer overflow is modelled with explicit `% 2 ^ 64`
where the Go code uses fixed-width arithmetic.
-/

namespace LiteLLM

/-! ### Go string primitives -/

/-- Embeds `strings.HasPrefix` style matching on character lists:
`charsStart pat s` is true when `pat` occurs at the head of `s`. -/
def charsStart : List Char → List Char → Bool
  | [], _ => true
  | _ :: _, [] => false
  | p :: ps, c :: cs => p == c && charsStart ps cs

/-- Embeds `strings.Contains` on character lists: some suffix of `s`
begins with `pat`. -/
def charsHas (pat : List Char) : List Char → Bool
  | [] => charsStart pat []
  | c :: rest => charsStart pat (c :: rest) || charsHas pat rest

/-- Embeds `strings.Contains` on strings. -/
def goContains (s pat : String) : Bool :=
  charsHas pat.toList s.toList

/-- Embeds `strings.HasPrefix` on strings. -/
def goHasPre (s pat : String) : Bool :=
  charsStart pat.toList s.toList

/-- Embeds `strings.TrimSpace`: drop leading and trailing whitespace. -/
def goTrim (s : String) : String :=
  ⟨((s.toList.dropWhile Char.isWhitespace).reverse.dropWhile Char.isWhitespace).reverse⟩

/-- Helper for `goFields`: splits a character list around runs of
whitespace, accumulating the current word in reverse. -/
def fieldsAux : List Char → List Char → List (List Char)
  | [], acc => if acc.isEmpty then [] else [acc.reverse]
  | c :: cs, acc =>
    if c.isWhitespace then
      if acc.isEmpty then fieldsAux cs [] else acc.reverse :: fieldsAux cs []
    else fieldsAux cs (c :: acc)

/-- Embeds `strings.Fields`: split around runs of whitespace. -/
def goFields (s : String) : List String :=
  (fieldsAux s.toList []).map fun l => ⟨l⟩

/-- Embeds `strings.Split(s, "\n")`: split on every newline character. -/
def splitNlAux : List Char → List Char → List (List Char)
  | [], acc => [acc.reverse]
  | c :: cs, acc =>
    if c == '\n' then acc.reverse :: splitNlAux cs [] else splitNlAux cs (c :: acc)

/-- Embeds `strings.Split(s, "\n")` on strings. -/
def goSplitLines (s : String) : List String :=
  (splitNlAux s.toList []).map fun l => ⟨l⟩

/-- Embeds `strings.Split(s, ": ")`: split on every occurrence of the
two-character separator, left to right, non-overlapping. -/
def splitColonSpaceAux : List Char → List Char → List (List Char)
  | [], acc => [acc.reverse]
  | ':' :: ' ' :: rest, acc => acc.reverse :: splitColonSpaceAux rest []
  | c :: rest, acc => splitColonSpaceAux rest (c :: acc)

/-- Embeds `strings.Split(s, ": ")` on strings. -/
def goSplitColonSpace (s : String) : List String :=
  (splitColonSpaceAux s.toList []).map fun l => ⟨l⟩

/-- Embeds `strings.TrimSuffix(s, ":")`: remove one trailing colon when
present. -/
def goTrimColonSuffix (s : String) : String :=
  match s.toList.reverse with
  | ':' :: rest => ⟨rest.reverse⟩
  | _ => s

/-- Uppercase a string character-wise; stands in for the case-insensitive
`(?i)` regexp flag of the Go patterns (ASCII case folding). -/
def goUpper (s : String) : String := ⟨s.toList.map Char.toUpper⟩

/-! ### Go numeric parsing (`strconv`) -/

/-- Numeric value of a list of decimal digit characters. -/
def digitsVal (l : List Char) : ℕ :=
  l.foldl (fun a c => a * 10 + (c.toNat - 48)) 0

/-- Embeds `strconv.ParseUint(s, 10, 64)`: decimal digits only, no sign,
non-empty, value below `2 ^ 64`; `none` models a returned error. -/
def parseGoUInt (s : String) : Option ℕ :=
  let l := s.toList
  if l ≠ [] ∧ l.all Char.isDigit then
    let n := digitsVal l
    if n < 2 ^ 64 then some n else none
  else none

/-- Embeds `strconv.ParseInt(s, 10, 64)` and `strconv.Atoi`: optional
single sign, then decimal digits, value within the signed 64-bit range;
`none` models a returned error (including range errors, whose partial
result every call site discards by checking the error). -/
def parseGoInt (s : String) : Option ℤ :=
  let l := s.toList
  match l with
  | '+' :: rest =>
    if rest ≠ [] ∧ rest.all Char.isDigit then
      let n := digitsVal rest
      if n < 2 ^ 63 then some (n : ℤ) else none
    else none
  | '-' :: rest =>
    if rest ≠ [] ∧ rest.all Char.isDigit then
      let n := digitsVal rest
      if n ≤ 2 ^ 63 then some (-(n : ℤ)) else none
    else none
  | _ =>
    if l ≠ [] ∧ l.all Char.isDigit then
      let n := digitsVal l
      if n < 2 ^ 63 then some (n : ℤ) else none
    else none

/-- Embeds `strconv.ParseFloat(s, 64)` for the plain decimal forms the
sampled sysfs files carry (optional sign, digits, optional fraction);
exponent, infinity, NaN and hexadecimal forms are not modelled, and the
value is kept exact in `ℚ` rather than rounded to binary64.  No claim
in this development depends on those unmodelled forms or on rounding. -/
def parseGoFloat (s : String) : Option ℚ :=
  let core : List Char → Option ℚ := fun l =>
    match l.splitOn '.' with
    | [intPart] =>
      if intPart ≠ [] ∧ intPart.all Char.isDigit then
        some (digitsVal intPart : ℚ)
      else none
    | [intPart, fracPart] =>
      if (intPart ≠ [] ∨ fracPart ≠ []) ∧ intPart.all Char.isDigit ∧
          fracPart.all Char.isDigit then
        some ((digitsVal intPart : ℚ) +
          (digitsVal fracPart : ℚ) / ((10 : ℚ) ^ fracPart.length))
      else none
    | _ => none
  match s.toList with
  | '+' :: rest => core rest
  | '-' :: rest => (core rest).map Neg.neg
  | l => core l

/-! ### Metrics Sampler (package monitor)

The sampler reads fixed pseudo-files.  A `SysFs` value records, for each
of the four card0 attribute files the sampler touches, the contents that
a read would return (`none` models `os.ReadFile` failing, i.e. the file
being absent or unreadable). -/

structure SysFs where
  vramTotal : Option String
  vramUsed : Option String
  gpuBusy : Option String
  busy : Option String

/-- The whole environment a `GetPerformanceMetrics` call observes:
the first line of the stat pseudo-file (`none` when no line could be
scanned), the meminfo lines (`none` when the file could not be opened),
and the sysfs card0 attribute files. -/
structure MetricsEnv where
  procStatLine : Option String
  meminfo : Option (List String)
  sysfs : SysFs

/-- Embeds the `PerformanceMetrics` struct.  The timestamp field is not
modelled: no property depends on wall-clock time. -/
structure PerformanceMetrics where
  CPUUsage : ℚ
  MemoryUsedMB : ℤ
  MemoryTotalMB : ℤ
  MemoryUsagePercent : ℚ
  GPUUsage : ℚ
  GPUMemoryUsedMB : ℤ
  GPUMemoryTotalMB : ℤ
  deriving Repr, DecidableEq

/-- Embeds `getAMDGPUMemory`: read the given attribute file, trim, parse
as a signed 64-bit integer; any failure yields 0. -/
def getAMDGPUMemory (contents : Option String) : ℤ :=
  match contents with
  | none => 0
  | some data =>
    match parseGoInt (goTrim data) with
    | none => 0
    | some value => value

/-- Embeds the read loop of `getAMDGPUUsagePercent`: for each candidate
busy-percent file in order, an unreadable file or an unparseable value
moves on to the next; the first parsed value is returned. -/
def busyPercentLoop : List (Option String) → ℚ
  | [] => -1
  | contents :: rest =>
    match contents with
    | none => busyPercentLoop rest
    | some data =>
      match parseGoFloat (goTrim data) with
      | none => busyPercentLoop rest
      | some usage => usage

/-- Embeds `getAMDGPUUsagePercent`: try `gpu_busy_percent` then
`busy_percent`; if neither yields a value, return the sentinel -1. -/
def getAMDGPUUsagePercent (fs : SysFs) : ℚ :=
  busyPercentLoop [fs.gpuBusy, fs.busy]

/-- Embeds `getAMDGPUUsage`: returns (usage, usedMB, totalMB).  When the
VRAM total reads as non-positive the whole triple is the sentinel
(-1, 0, 0); otherwise bytes are converted to MB by truncating division
and the busy-percent chain supplies the usage figure. -/
def getAMDGPUUsage (fs : SysFs) : ℚ × ℤ × ℤ :=
  let gpuMemTotal := getAMDGPUMemory fs.vramTotal
  let gpuMemUsed := getAMDGPUMemory fs.vramUsed
  if gpuMemTotal > 0 then
    let totalMB := Int.tdiv gpuMemTotal (1024 * 1024)
    let usedMB := Int.tdiv gpuMemUsed (1024 * 1024)
    let usage := getAMDGPUUsagePercent fs
    (usage, usedMB, totalMB)
  else
    (-1, 0, 0)

/-- The final floating-point step of `getCPUUsage`:
`float64(total-idle) / float64(total) * 100`, kept exact in `ℚ`. -/
def cpuRatio (sub total : ℕ) : ℚ :=
  (sub : ℚ) / (total : ℚ) * 100

/-- Parse every field with `strconv.ParseUint`; the loop aborts on the
first parse error. -/
def parseAllUInt : List String → Option (List ℕ)
  | [] => some []
  | s :: rest =>
    match parseGoUInt s with
    | none => none
    | some v =>
      match parseAllUInt rest with
      | none => none
      | some vs => some (v :: vs)

/-- The repeated `total += val` on a `uint64` accumulator: every step
wraps modulo `2 ^ 64`. -/
def sumWrap (l : List ℕ) : ℕ :=
  l.foldl (fun acc v => (acc + v) % 2 ^ 64) 0

/-- Embeds `getCPUUsage`.  The input is the first line of the stat
pseudo-file (`none` when scanning produced no line).  `none` in the
result models a non-nil returned error (only a `ParseUint` failure
produces one together with a file-open failure, which is outside this
input type); the paths that return 0 with a nil error — no line, too few
fields, wrong marker, zero total — yield `some 0` exactly as the code
does.  `total - idle` is 64-bit unsigned subtraction, hence the explicit
wrap. -/
def getCPUUsage (line : Option String) : Option ℚ :=
  match line with
  | none => some 0
  | some line =>
    let fields := goFields line
    if fields.length < 8 ∨ fields.getD 0 "" ≠ "cpu" then some 0
    else
      match parseAllUInt (fields.drop 1) with
      | none => none
      | some vals =>
        let total := sumWrap vals
        let idle := vals.getD 3 0
        if total = 0 then some 0
        else some (cpuRatio ((total + 2 ^ 64 - idle) % 2 ^ 64) total)

/-- Accumulator for the meminfo scan of `getMemoryUsage`; all figures in
MB after the per-line KB → MB division. -/
structure MemAcc where
  memTotal : ℤ
  memFree : ℤ
  memBuffers : ℤ
  memCached : ℤ

/-- The line loop of `getMemoryUsage`: lines with fewer than two fields
or an unparseable second field are skipped; recognised keys overwrite
the accumulator with `value / 1024` (truncating division, KB → MB). -/
def memInfoLoop (acc : MemAcc) : List String → MemAcc
  | [] => acc
  | line :: rest =>
    let fields := goFields line
    if fields.length < 2 then memInfoLoop acc rest
    else
      let key := goTrimColonSuffix (fields.getD 0 "")
      match parseGoInt (fields.getD 1 "") with
      | none => memInfoLoop acc rest
      | some value =>
        let mb := Int.tdiv value 1024
        let acc' :=
          if key = "MemTotal" then { acc with memTotal := mb }
          else if key = "MemFree" then { acc with memFree := mb }
          else if key = "Buffers" then { acc with memBuffers := mb }
          else if key = "Cached" then { acc with memCached := mb }
          else acc
        memInfoLoop acc' rest

/-- Embeds `getMemoryUsage`: returns (usedMB, totalMB), or `none` when
the meminfo pseudo-file could not be opened. -/
def getMemoryUsage (meminfo : Option (List String)) : Option (ℤ × ℤ) :=
  match meminfo with
  | none => none
  | some lines =>
    let acc := memInfoLoop ⟨0, 0, 0, 0⟩ lines
    some (acc.memTotal - acc.memFree - acc.memBuffers - acc.memCached, acc.memTotal)

/-- Embeds `GetPerformanceMetrics`: starts from the zero struct with the
GPU-usage sentinel -1, then fills each sub-metric only when its reader
succeeded; the GPU triple is copied only when the usage figure is
non-negative. -/
def GetPerformanceMetrics (env : MetricsEnv) : PerformanceMetrics :=
  let base : PerformanceMetrics :=
    { CPUUsage := 0, MemoryUsedMB := 0, MemoryTotalMB := 0,
      MemoryUsagePercent := 0, GPUUsage := -1,
      GPUMemoryUsedMB := 0, GPUMemoryTotalMB := 0 }
  let m1 :=
    match getCPUUsage env.procStatLine with
    | none => base
    | some c => { base with CPUUsage := c }
  let m2 :=
    match getMemoryUsage env.meminfo with
    | none => m1
    | some (memUsed, memTotal) =>
      let m := { m1 with MemoryUsedMB := memUsed, MemoryTotalMB := memTotal }
      if memTotal > 0 then
        { m with MemoryUsagePercent := (memUsed : ℚ) / (memTotal : ℚ) * 100 }
      else m
  let gpu := getAMDGPUUsage env.sysfs
  if gpu.1 ≥ 0 then
    { m2 with
        GPUUsage := gpu.1
        GPUMemoryUsedMB := (gpu.2).1
        GPUMemoryTotalMB := (gpu.2).2 }
  else m2

/-! ### Hardware Prober (package system, checker.go) -/

/-- Matching of the vendor regexps: an occurrence of `lead` somewhere in
the character list, followed (at any distance, possibly zero) by an
occurrence of one of `kws`.  This is exactly the unanchored boolean
semantics of `lead.*(kw1|kw2|...)`. -/
def matchThen (lead : List Char) (kws : List (List Char)) : List Char → Bool
  | [] => false
  | c :: rest =>
    (charsStart lead (c :: rest) &&
      kws.any fun kw => charsHas kw ((c :: rest).drop lead.length)) ||
    matchThen lead kws rest

/-- Embeds `MatchString` of the pattern
`(?i)NVIDIA.*(GeForce|RTX|GTX|Tesla|Quadro)` (case folded by
uppercasing both sides). -/
def nvidiaRegexMatch (s : String) : Bool :=
  matchThen "NVIDIA".toList
    ["GEFORCE".toList, "RTX".toList, "GTX".toList, "TESLA".toList, "QUADRO".toList]
    (goUpper s).toList

/-- Embeds `MatchString` of the pattern
`(?i)(AMD|ATI).*(Radeon|RX|Ellesmere|Polaris)`. -/
def amdRegexMatch (s : String) : Bool :=
  let kws := ["RADEON".toList, "RX".toList, "ELLESMERE".toList, "POLARIS".toList]
  matchThen "AMD".toList kws (goUpper s).toList ||
    matchThen "ATI".toList kws (goUpper s).toList

/-- Maximal run of decimal digits at the head of a character list,
returned together with the remainder. -/
def digitSpan : List Char → List Char × List Char
  | [] => ([], [])
  | c :: rest =>
    if c.isDigit then
      let (run, rem) := digitSpan rest
      (c :: run, rem)
    else ([], c :: rest)

/-- The value `strconv.Atoi` assigns to the captured digit run of the
memory regexp; the call site discards the error, so a run overflowing
the signed 64-bit range is left at the clamped maximum that
`strconv.ParseInt` returns together with its range error. -/
def atoiClamped (run : List Char) : ℤ :=
  let n := digitsVal run
  if n ≤ 2 ^ 63 - 1 then (n : ℤ) else ((2 : ℤ) ^ 63 - 1)

/-- Leftmost-first search for `(\d+)([MG])B` in an already-uppercased
character list: the first digit run (taken maximally, as the greedy
`\d+` with the mandatory `[MG]B` tail admits no shorter match) that is
immediately followed by `M` or `G` and then `B`.  Returns the captured
number and whether the unit was `G`. -/
def memScan : List Char → Option (ℤ × Bool)
  | [] => none
  | c :: rest =>
    if c.isDigit then
      let (run, rem) := digitSpan (c :: rest)
      match rem with
      | 'M' :: 'B' :: _ => some (atoiClamped run, false)
      | 'G' :: 'B' :: _ => some (atoiClamped run, true)
      | _ => memScan rest
    else memScan rest

/-- Find the first occurrence of `MEMORY` in an uppercased character
list and return the characters after it. -/
def afterMemoryMarker : List Char → Option (List Char)
  | [] => none
  | c :: rest =>
    if charsStart "MEMORY".toList (c :: rest) then some ((c :: rest).drop 6)
    else afterMemoryMarker rest

/-- Signed 64-bit wrap-around, for the `size * 1024` of the G → M
conversion performed in native `int` arithmetic. -/
def int64Wrap (n : ℤ) : ℤ :=
  (n + 2 ^ 63) % 2 ^ 64 - 2 ^ 63

/-- Embeds `memRegex.FindStringSubmatch` plus the capture handling: the
memory figure a line reports, in MB, under the pattern
`(?i)memory.*?(\d+)([MG])B` — `none` when the line has no match. -/
def memFromLine (line : String) : Option ℤ :=
  match afterMemoryMarker (goUpper line).toList with
  | none => none
  | some tail =>
    match memScan tail with
    | none => none
    | some (size, isG) => some (if isG then int64Wrap (size * 1024) else size)

/-- The inner scan of the GPU checkers: walk the following lines
(already truncated to the 19-line window), stop at the first blank line,
and return the first reported memory figure, defaulting to 0. -/
def scanMemLines : List String → ℤ
  | [] => 0
  | line :: rest =>
    if goTrim line = "" then 0
    else
      match memFromLine line with
      | some m => m
      | none => scanMemLines rest

/-- The outer scan of the GPU checkers: find the first line containing
the VGA-controller marker and matching the vendor pattern; extract the
model as the trimmed text after the first `": "` and the memory figure
from the following window.  `none` when no line matches. -/
def scanGpu (vendorMatch : String → Bool) : List String → Option (String × ℤ)
  | [] => none
  | line :: rest =>
    if goContains line "VGA compatible controller" && vendorMatch line then
      let parts := goSplitColonSpace line
      let model := if parts.length > 1 then goTrim (parts.getD 1 "") else ""
      some (model, scanMemLines (rest.take 19))
    else scanGpu vendorMatch rest

/-- Environment of the DRM fallback `getGPUMemoryAlternative`: the
directory listing of the DRM class path (`none` when `os.ReadDir`
fails, names in directory order) and the contents of each candidate
`mem_info_vram_total` attribute file, keyed by entry name (`none` when
the read fails). -/
structure DrmEnv where
  entries : Option (List String)
  vramTotalOf : String → Option String

/-- The entry loop of `getGPUMemoryAlternative`: the first entry whose
name starts with `card`, contains no hyphen, and whose attribute file
reads and parses, yields its byte count divided down to MB; when no
entry qualifies the hard-coded 8192 MB default is returned. -/
def drmEntryLoop (env : DrmEnv) : List String → ℤ
  | [] => 8192
  | name :: rest =>
    if goHasPre name "card" && !goContains name "-" then
      match env.vramTotalOf name with
      | none => drmEntryLoop env rest
      | some data =>
        match parseGoInt (goTrim data) with
        | none => drmEntryLoop env rest
        | some size => Int.tdiv size (1024 * 1024)
    else drmEntryLoop env rest

/-- Embeds `getGPUMemoryAlternative`: a failed directory read returns 0;
otherwise the entry loop runs with its 8192 MB fallback. -/
def getGPUMemoryAlternative (env : DrmEnv) : ℤ :=
  match env.entries with
  | none => 0
  | some files => drmEntryLoop env files

/-- Embeds `getNVIDIAMemoryFromSMI`: parse the device-query output,
falling back to 8192 MB when the command fails or the output does not
parse. -/
def getNVIDIAMemoryFromSMI (output : Option String) : ℤ :=
  match output with
  | none => 8192
  | some out =>
    match parseGoInt (goTrim out) with
    | some mem => mem
    | none => 8192

/-- Everything a `GetSystemInfo` call observes from the host:
command outputs are `none` when the command failed. -/
structure ProbeEnv where
  dockerOk : Bool
  lspci : Option String
  nvidiaSmi : Option String
  drm : DrmEnv
  rocmPathExists : String → Bool
  rocmRunOk : String → Bool
  lsmod : Option String
  meminfo : Option (List String)
  uname : Option String

/-- Embeds `checkNVIDIAGPU`: a failed PCI enumeration degrades to
(false, "", 0); a matching VGA line with no memory figure falls back to
the device-query tool. -/
def checkNVIDIAGPU (env : ProbeEnv) : Bool × String × ℤ :=
  match env.lspci with
  | none => (false, "", 0)
  | some out =>
    match scanGpu nvidiaRegexMatch (goSplitLines out) with
    | none => (false, "", 0)
    | some (model, memory) =>
      let memory := if memory = 0 then getNVIDIAMemoryFromSMI env.nvidiaSmi else memory
      (true, model, memory)

/-- Embeds `checkAMDGPU`: as the NVIDIA checker, but the memory fallback
is the DRM class-path scan. -/
def checkAMDGPU (env : ProbeEnv) : Bool × String × ℤ :=
  match env.lspci with
  | none => (false, "", 0)
  | some out =>
    match scanGpu amdRegexMatch (goSplitLines out) with
    | none => (false, "", 0)
    | some (model, memory) =>
      let memory := if memory = 0 then getGPUMemoryAlternative env.drm else memory
      (true, model, memory)

/-- Embeds `checkROCm`: the first existing rocminfo binary decides by
whether it runs successfully; with neither installed, presence of the
`amdgpu` module in the loaded-module list decides, and a failed lsmod
degrades to false. -/
def checkROCm (env : ProbeEnv) : Bool :=
  if env.rocmPathExists "/opt/rocm/bin/rocminfo" then
    env.rocmRunOk "/opt/rocm/bin/rocminfo"
  else if env.rocmPathExists "/usr/bin/rocminfo" then
    env.rocmRunOk "/usr/bin/rocminfo"
  else
    match env.lsmod with
    | none => false
    | some out => goContains out "amdgpu"

/-- The line loop of the checker `getSystemMemory`: the first line with
the `MemTotal:` marker and a parseable second field yields KB divided
down to MB; everything else degrades to 0. -/
def sysMemLoop : List String → ℤ
  | [] => 0
  | line :: rest =>
    if goHasPre line "MemTotal:" then
      let fields := goFields line
      if fields.length ≥ 2 then
        match parseGoInt (fields.getD 1 "") with
        | some kb => Int.tdiv kb 1024
        | none => sysMemLoop rest
      else sysMemLoop rest
    else sysMemLoop rest

/-- Embeds the checker `getSystemMemory`: 0 when the meminfo
pseudo-file cannot be opened. -/
def getSystemMemory (meminfo : Option (List String)) : ℤ :=
  match meminfo with
  | none => 0
  | some lines => sysMemLoop lines

/-- Embeds `getKernelVersion`: trimmed command output, or `"unknown"`
when the command fails. -/
def getKernelVersion (output : Option String) : String :=
  match output with
  | none => "unknown"
  | some out => goTrim out

/-- Embeds the `SystemInfo` struct. -/
structure SystemInfo where
  HasDocker : Bool
  HasROCm : Bool
  HasNVIDIA : Bool
  HasAMDGPU : Bool
  GPUMemory : ℤ
  SystemMemory : ℤ
  GPUModel : String
  GPUType : String
  KernelVersion : String
  deriving Repr, DecidableEq

/-- Embeds `GetSystemInfo`: assembles the profile from the sub-checks
and — as the source does on every path — returns a nil error, modelled
as the second component `none`. -/
def GetSystemInfo (env : ProbeEnv) : SystemInfo × Option String :=
  let hasDocker := env.dockerOk
  let nvidia := checkNVIDIAGPU env
  let amd := checkAMDGPU env
  let info : SystemInfo :=
    if nvidia.1 then
      { HasDocker := hasDocker, HasROCm := checkROCm env
        HasNVIDIA := true, HasAMDGPU := amd.1
        GPUMemory := (nvidia.2).2, SystemMemory := getSystemMemory env.meminfo
        GPUModel := (nvidia.2).1, GPUType := "nvidia"
        KernelVersion := getKernelVersion env.uname }
    else if amd.1 then
      { HasDocker := hasDocker, HasROCm := checkROCm env
        HasNVIDIA := false, HasAMDGPU := true
        GPUMemory := (amd.2).2, SystemMemory := getSystemMemory env.meminfo
        GPUModel := (amd.2).1, GPUType := "amd"
        KernelVersion := getKernelVersion env.uname }
    else
      { HasDocker := hasDocker, HasROCm := checkROCm env
        HasNVIDIA := false, HasAMDGPU := false
        GPUMemory := 0, SystemMemory := getSystemMemory env.meminfo
        GPUModel := "", GPUType := "unknown"
        KernelVersion := getKernelVersion env.uname }
  (info, none)

/-- Embeds `validateRequirements`.  The four fatal checks append their
messages in source order; the ROCm and container-toolkit checks only
log warnings and contribute nothing.  `none` models a nil error,
`some msg` the aggregated multi-line error. -/
def validateRequirements (info : SystemInfo) : Option String :=
  let errors : List String :=
    (if ¬info.HasDocker then ["Docker is not installed or not accessible"] else []) ++
    (if ¬info.HasNVIDIA ∧ ¬info.HasAMDGPU then
      ["No supported GPU detected (NVIDIA or AMD)"] else []) ++
    (if info.GPUMemory < 6144 then
      ["GPU memory (" ++ toString info.GPUMemory ++
        "MB) is below recommended minimum (6GB)"] else []) ++
    (if info.SystemMemory < 8192 then
      ["System memory (" ++ toString info.SystemMemory ++
        "MB) is below recommended minimum (8GB)"] else [])
  if errors.length > 0 then
    some ("system requirements not met:\n  - " ++ String.intercalate "\n  - " errors)
  else none

/-! ### Inference-Server Client (package ollama, client.go)

The HTTP layer is embedded at the boundary the client code observes:
a request value records the method, path and content type the helper
builders set; a response is `none` when the round trip failed
(network error or cancellation — the `Unreachable` failure of the
specification taxonomy) and otherwise carries the status code together
with the decoded form of the body where the operation decodes one. -/

structure HttpRequest where
  method : String
  path : String
  jsonContentType : Bool
  deriving Repr, DecidableEq

/-- Embeds the `get` helper: a GET request with no content type set. -/
def clientGet (path : String) : HttpRequest :=
  { method := "GET", path := path, jsonContentType := false }

/-- Embeds the `post` helper: a POST request with the JSON content
type. -/
def clientPost (path : String) : HttpRequest :=
  { method := "POST", path := path, jsonContentType := true }

/-- Embeds the `delete` helper: a request built with the HTTP method
string `"DELETE"` and the JSON content type. -/
def clientDelete (path : String) : HttpRequest :=
  { method := "DELETE", path := path, jsonContentType := true }

/-- The failure taxonomy of the client operations. -/
inductive ClientError where
  | unreachable
  | nonSuccessStatus (code : ℤ)
  | decodeError
  deriving Repr, DecidableEq

/-- Embeds the `Model` record (`modified_at` kept as its wire string;
no property depends on time parsing). -/
structure Model where
  name : String
  size : ℤ
  modifiedAt : String
  deriving Repr, DecidableEq

/-- Embeds `ListModelsResponse`. -/
structure ListModelsResponse where
  models : List Model
  deriving Repr, DecidableEq

/-- Embeds `GenerateResponse`. -/
structure GenerateResponse where
  model : String
  response : String
  done : Bool
  createdAt : String
  deriving Repr, DecidableEq

/-- The request `ListModels` sends. -/
def ListModelsRequest : HttpRequest := clientGet "/api/tags"

/-- Embeds `ListModels`: the response status is never consulted; the
decoded body is returned as is, and only a decode failure is an
error. -/
def ListModels (resp : Option (ℤ × Option ListModelsResponse)) :
    Except ClientError (List Model) :=
  match resp with
  | none => .error .unreachable
  | some (_, none) => .error .decodeError
  | some (_, some listResp) => .ok listResp.models

/-- The request `Generate` sends. -/
def GenerateRequest : HttpRequest := clientPost "/api/generate"

/-- Embeds `Generate`: as `ListModels`, the status is never consulted. -/
def Generate (resp : Option (ℤ × Option GenerateResponse)) :
    Except ClientError GenerateResponse :=
  match resp with
  | none => .error .unreachable
  | some (_, none) => .error .decodeError
  | some (_, some genResp) => .ok genResp

/-- The request `Health` sends. -/
def HealthRequest : HttpRequest := clientGet "/api/version"

/-- Embeds `Health`: success exactly on status 200. -/
def Health (resp : Option ℤ) : Except ClientError Unit :=
  match resp with
  | none => .error .unreachable
  | some code =>
    if code ≠ 200 then .error (.nonSuccessStatus code) else .ok ()

/-- The request `DeleteModel` sends: built by the `delete` helper, not
the `post` helper. -/
def DeleteModelRequest : HttpRequest := clientDelete "/api/delete"

/-- Embeds the response handling of `DeleteModel`: success exactly on
status 200. -/
def DeleteModel (resp : Option ℤ) : Except ClientError Unit :=
  match resp with
  | none => .error .unreachable
  | some code =>
    if code ≠ 200 then .error (.nonSuccessStatus code) else .ok ()

/-- Embeds `PullProgress`. -/
structure PullProgress where
  status : String
  digest : String
  total : ℤ
  completed : ℤ
  deriving Repr, DecidableEq

/-- One `decoder.Decode` outcome inside the pull read loop: a decoded
event, or a malformed chunk (any decode error other than end-of-stream);
end-of-stream is the end of the list. -/
inductive PullChunk where
  | event (p : PullProgress)
  | malformed
  deriving Repr, DecidableEq

/-- The request `PullModel` sends (body `{name, stream:true}`). -/
def PullModelRequest : HttpRequest := clientPost "/api/pull"

/-- Embeds the read loop of `PullModel`: each decoded event is delivered
to the sink and then tested against the literal `"success"`, which stops
the loop; end-of-stream stops it cleanly; a malformed chunk aborts with
a decode error, delivering nothing further.  Returns the delivered
events in order together with the outcome. -/
def pullLoop : List PullChunk → List PullProgress × Except ClientError Unit
  | [] => ([], .ok ())
  | .malformed :: _ => ([], .error .decodeError)
  | .event p :: rest =>
    if p.status = "success" then ([p], .ok ())
    else
      let r := pullLoop rest
      (p :: r.1, r.2)

/-- Embeds `PullModel` around the loop: a failed round trip delivers
nothing and is `Unreachable`. -/
def PullModel (resp : Option (List PullChunk)) :
    List PullProgress × Except ClientError Unit :=
  match resp with
  | none => ([], .error .unreachable)
  | some chunks => pullLoop chunks

/-! ### Helper lemmas -/

/-- The wrapped accumulation equals the mathematical sum reduced once,
for any starting value already in range. -/
lemma foldl_wrap (l : List ℕ) : ∀ a : ℕ,
    l.foldl (fun acc v => (acc + v) % 2 ^ 64) (a % 2 ^ 64) = (a + l.sum) % 2 ^ 64 := by
  induction l with
  | nil => intro a; simp
  | cons v rest ih =>
    intro a
    have h1 : (a % 2 ^ 64 + v) % 2 ^ 64 = (a + v) % 2 ^ 64 := Nat.mod_add_mod a (2 ^ 64) v
    calc (v :: rest).foldl (fun acc w => (acc + w) % 2 ^ 64) (a % 2 ^ 64)
        = rest.foldl (fun acc w => (acc + w) % 2 ^ 64) ((a + v) % 2 ^ 64) := by
          simp [List.foldl, h1]
      _ = (a + v + rest.sum) % 2 ^ 64 := ih (a + v)
      _ = (a + (v :: rest).sum) % 2 ^ 64 := by
          simp [List.sum_cons]; ring_nf

/-- `sumWrap` is the sum modulo `2 ^ 64`. -/
lemma sumWrap_eq_sum_mod (l : List ℕ) : sumWrap l = l.sum % 2 ^ 64 := by
  have h := foldl_wrap l 0
  simpa [sumWrap] using h

/-- An element fetched with a zero default never exceeds the sum of a
list of naturals. -/
lemma getD_le_sum (l : List ℕ) (i : ℕ) : l.getD i 0 ≤ l.sum := by
  rcases h : l[i]? with _ | v
  · simp [List.getD, h]
  · have hv : v ∈ l := List.getElem?_mem h
    have := List.single_le_sum (l := l) (fun x _ => Nat.zero_le x) v hv
    simpa [List.getD, h] using this

/-- Fetching in a mapped list with a zero default commutes with a
multiplicative map. -/
lemma getD_map_mul (l : List ℕ) (k i : ℕ) :
    (l.map fun v => k * v).getD i 0 = k * l.getD i 0 := by
  rcases h : l[i]? with _ | v
  · simp [List.getD, List.getElem?_map, h]
  · simp [List.getD, List.getElem?_map, h]

/-- Sum of a list after scaling every element. -/
lemma sum_map_mul (l : List ℕ) (k : ℕ) :
    (l.map fun v => k * v).sum = k * l.sum := by
  induction l with
  | nil => simp
  | cons v rest ih => simp [ih, Nat.mul_add]

/-- When the inner GPU reader reports a negative usage figure, the
sampler leaves all three GPU fields at their initial values: the -1
sentinel and zero memory figures. -/
lemma perfMetrics_gpu_neg (env : MetricsEnv)
    (h : (getAMDGPUUsage env.sysfs).1 < 0) :
    (GetPerformanceMetrics env).GPUUsage = -1 ∧
    (GetPerformanceMetrics env).GPUMemoryUsedMB = 0 ∧
    (GetPerformanceMetrics env).GPUMemoryTotalMB = 0 := by
  have hneg : ¬((getAMDGPUUsage env.sysfs).1 ≥ 0) := not_le.mpr h
  unfold GetPerformanceMetrics
  rcases hc : getCPUUsage env.procStatLine with _ | c <;>
    rcases hm : getMemoryUsage env.meminfo with _ | ⟨mu, mt⟩ <;>
      simp only [hc, hm, hneg, if_false] <;> (try split_ifs) <;> simp

/-- The single yield an entry of the DRM scan can produce: `none` when
the entry is filtered out, unreadable or unparseable, and the converted
MB figure otherwise.  Stated from the specification side to compare the
loop against. -/
def drmEntryYield (env : DrmEnv) (n : String) : Option ℤ :=
  if goHasPre n "card" && !goContains n "-" then
    match env.vramTotalOf n with
    | none => none
    | some data =>
      match parseGoInt (goTrim data) with
      | none => none
      | some size => some (Int.tdiv size (1024 * 1024))
  else none

/-- One step of the DRM entry loop, phrased through the per-entry
yield. -/
lemma drmEntryLoop_cons (env : DrmEnv) (name : String) (rest : List String) :
    drmEntryLoop env (name :: rest) =
      (match drmEntryYield env name with
        | some v => v
        | none => drmEntryLoop env rest) := by
  cases hf : (goHasPre name "card" && !goContains name "-") with
  | true =>
    rcases hr : env.vramTotalOf name with _ | data
    · simp [drmEntryLoop, drmEntryYield, hf, hr]
    · rcases hp : parseGoInt (goTrim data) with _ | size <;>
        simp [drmEntryLoop, drmEntryYield, hf, hr, hp]
  | false => simp [drmEntryLoop, drmEntryYield, hf]

/-- The DRM entry loop returns the first entry yield, defaulting to
8192. -/
lemma drmEntryLoop_eq (env : DrmEnv) (files : List String) :
    drmEntryLoop env files = ((files.filterMap fun n => drmEntryYield env n).headD 8192) := by
  induction files with
  | nil => rfl
  | cons name rest ih =>
    rw [drmEntryLoop_cons]
    rcases h : drmEntryYield env name with _ | v
    · rw [List.filterMap_cons_none h]
      exact ih
    · rw [List.filterMap_cons_some h, List.headD_cons]

/-! ### Claims -/

/-- Claim C2, counterexample: the delete request is built with the HTTP
method string `"DELETE"`, not `"POST"` — the claim that DeleteModel
sends a POST to the delete endpoint is false at the very request the
operation constructs. -/
theorem C2_counterexample :
    DeleteModelRequest.method = "DELETE" ∧ DeleteModelRequest.method ≠ "POST" := by
  constructor
  · rfl
  · decide

/-- Claim C2, amended: DeleteModel sends its request to `/api/delete`
using the HTTP DELETE method, and it succeeds if and only if the
response status is 200, failing with a non-success-status error carrying
the code otherwise. -/
theorem C2_delete_wire (code : ℤ) :
    DeleteModelRequest.method = "DELETE" ∧
    DeleteModelRequest.path = "/api/delete" ∧
    (DeleteModel (some code) = .ok () ↔ code = 200) ∧
    (code ≠ 200 → DeleteModel (some code) = .error (.nonSuccessStatus code)) := by
  refine ⟨rfl, rfl, ?_, ?_⟩
  · unfold DeleteModel
    constructor
    · intro h
      by_contra hne
      simp [hne] at h
    · intro h
      simp [h]
  · intro h
    simp [DeleteModel, h]

/-- Claim C2, witness: status 200 succeeds, status 404 fails with the
non-success-status error. -/
theorem C2_witness :
    DeleteModel (some 200) = .ok () ∧
    DeleteModel (some 404) = .error (.nonSuccessStatus 404) := by
  refine ⟨((C2_delete_wire 200).2.2.1).mpr rfl, (C2_delete_wire 404).2.2.2 (by decide)⟩

/-- Claim C5: validating the profile with no container runtime, no GPU
vendor, 4096 MB of GPU memory and 4096 MB of system memory yields the
aggregated error listing exactly the four violations, one per line, in
the order runtime, vendor, GPU-memory floor, system-memory floor — and
the accelerator-stack flag never influences the aggregated error. -/
theorem C5_validation_aggregation (hasROCm : Bool) (gpuModel kernelVersion : String) :
    validateRequirements
      { HasDocker := false, HasROCm := hasROCm, HasNVIDIA := false,
        HasAMDGPU := false, GPUMemory := 4096, SystemMemory := 4096,
        GPUModel := gpuModel, GPUType := "unknown",
        KernelVersion := kernelVersion } =
      some ("system requirements not met:" ++
        "\n  - Docker is not installed or not accessible" ++
        "\n  - No supported GPU detected (NVIDIA or AMD)" ++
        "\n  - GPU memory (4096MB) is below recommended minimum (6GB)" ++
        "\n  - System memory (4096MB) is below recommended minimum (8GB)") ∧
    (∀ (info : SystemInfo) (b : Bool),
      validateRequirements { info with HasROCm := b } = validateRequirements info) := by
  exact ⟨rfl, fun info b => rfl⟩

/-- Claim C6, counterexample: when the DRM class directory itself cannot
be read, the fallback reports 0 MB, not the claimed 8192 MB default. -/
theorem C6_counterexample :
    getGPUMemoryAlternative ⟨none, fun _ => none⟩ = 0 ∧ (0 : ℤ) ≠ 8192 := by
  exact ⟨rfl, by decide⟩

/-- Claim C6, amended: the AMD memory fallback enumerates the DRM
directory entries whose names start with `card` and contain no hyphen,
reads and parses each `mem_info_vram_total` attribute file, and reports
the first parsed byte count converted to MB; when the directory listing
itself fails it reports 0, and in every other failure case (no matching
entry, attribute unreadable or unparseable throughout) it defaults to
8192 MB. -/
theorem C6_drm_fallback (env : DrmEnv) :
    getGPUMemoryAlternative env =
      (match env.entries with
        | none => 0
        | some files => (files.filterMap fun n => drmEntryYield env n).headD 8192) := by
  rcases h : env.entries with _ | files
  · simp [getGPUMemoryAlternative, h]
  · simp [getGPUMemoryAlternative, h, drmEntryLoop_eq]

/-- Claim C10: ListModels and Generate never inspect the response
status — any decodable body yields a successful result even on a 500,
including the empty-object body giving an empty model list — whereas
Health and DeleteModel succeed exactly on status 200. -/
theorem C10_status_blindness :
    (∀ (code : ℤ) (body : ListModelsResponse),
      ListModels (some (code, some body)) = .ok body.models) ∧
    (∀ (code : ℤ) (body : GenerateResponse),
      Generate (some (code, some body)) = .ok body) ∧
    ListModels (some (500, some ⟨[]⟩)) = .ok [] ∧
    (∀ code : ℤ, code ≠ 200 →
      Health (some code) = .error (.nonSuccessStatus code) ∧
      DeleteModel (some code) = .error (.nonSuccessStatus code)) ∧
    Health (some 200) = .ok () ∧
    DeleteModel (some 200) = .ok () := by
  refine ⟨fun code body => rfl, fun code body => rfl, rfl, ?_, rfl, rfl⟩
  intro code h
  constructor
  · simp [Health, h]
  · simp [DeleteModel, h]

/-- Claim C10, witness: a 500 response with a decodable body succeeds
for ListModels and fails for Health. -/
theorem C10_witness :
    ListModels (some (500, some ⟨[]⟩)) = .ok [] ∧
    Health (some 500) = .error (.nonSuccessStatus 500) := by
  exact ⟨C10_status_blindness.2.2.1,
    (C10_status_blindness.2.2.2.1 500 (by decide)).1⟩

/-- Claim C3: when the decoded event sequence reaches its first
`"success"` event, the pull loop delivers exactly the preceding events
followed by that success event, returns cleanly, and never touches the
remainder of the stream — `post` is arbitrary and may even contain
malformed chunks. -/
theorem C3_pull_success_exact (pre : List PullProgress) (s : PullProgress)
    (post : List PullChunk)
    (hpre : ∀ p ∈ pre, p.status ≠ "success") (hs : s.status = "success") :
    PullModel (some (pre.map .event ++ .event s :: post)) = (pre ++ [s], .ok ()) := by
  induction pre with
  | nil => simp [PullModel, pullLoop, hs]
  | cons p rest ih =>
    have hp : p.status ≠ "success" := hpre p (List.mem_cons_self p rest)
    have hrest : ∀ q ∈ rest, q.status ≠ "success" :=
      fun q hq => hpre q (List.mem_cons_of_mem p hq)
    have ih' := ih hrest
    simp only [PullModel] at ih' ⊢
    simp [pullLoop, hp, ih']

/-- Claim C3, witness: a downloading event, the success event, then an
extra event and a malformed chunk after it — exactly the prefix up to
the success event is delivered. -/
theorem C3_witness :
    PullModel (some [.event ⟨"downloading", "sha", 10, 5⟩,
      .event ⟨"success", "", 0, 0⟩, .event ⟨"after", "", 0, 0⟩, .malformed]) =
      ([⟨"downloading", "sha", 10, 5⟩, ⟨"success", "", 0, 0⟩], .ok ()) := by
  exact C3_pull_success_exact [⟨"downloading", "sha", 10, 5⟩] ⟨"success", "", 0, 0⟩
    [.event ⟨"after", "", 0, 0⟩, .malformed] (by decide) rfl

/-- Claim C4: a stream that ends before any success event is a clean
end — every event is delivered and the result is success — while a
malformed chunk aborts immediately with a decode error, delivering only
the events before it and touching nothing after it. -/
theorem C4_pull_error_behaviour (es : List PullProgress) (rest : List PullChunk)
    (h : ∀ p ∈ es, p.status ≠ "success") :
    PullModel (some (es.map .event)) = (es, .ok ()) ∧
    PullModel (some (es.map .event ++ .malformed :: rest)) =
      (es, .error .decodeError) := by
  induction es with
  | nil => simp [PullModel, pullLoop]
  | cons p tail ih =>
    have hp : p.status ≠ "success" := h p (List.mem_cons_self p tail)
    have htail : ∀ q ∈ tail, q.status ≠ "success" :=
      fun q hq => h q (List.mem_cons_of_mem p hq)
    have ih' := ih htail
    constructor
    · have := ih'.1
      simp only [PullModel] at this ⊢
      simp [pullLoop, hp, this]
    · have := ih'.2
      simp only [PullModel] at this ⊢
      simp [pullLoop, hp, this]

/-- Claim C4, witness: a truncated stream of two non-success events
returns success; the same stream with a malformed chunk appended aborts
with a decode error after delivering the same two events. -/
theorem C4_witness :
    PullModel (some [.event ⟨"pulling", "", 3, 1⟩, .event ⟨"verifying", "", 3, 3⟩]) =
      ([⟨"pulling", "", 3, 1⟩, ⟨"verifying", "", 3, 3⟩], .ok ()) ∧
    PullModel (some [.event ⟨"pulling", "", 3, 1⟩, .event ⟨"verifying", "", 3, 3⟩,
      .malformed]) =
      ([⟨"pulling", "", 3, 1⟩, ⟨"verifying", "", 3, 3⟩], .error .decodeError) := by
  have h := C4_pull_error_behaviour
    [⟨"pulling", "", 3, 1⟩, ⟨"verifying", "", 3, 3⟩] [] (by decide)
  exact ⟨h.1, by simpa using h.2⟩

/-- Claim C7: whenever the VRAM-total attribute file is absent, fails to
parse, or reads as zero, the sample carries the -1 GPU sentinel and zero
GPU memory figures, whatever the busy-percent files (and the rest of the
environment) contain. -/
theorem C7_gpu_memory_sentinel (env : MetricsEnv)
    (h : env.sysfs.vramTotal = none ∨
      (∃ d, env.sysfs.vramTotal = some d ∧ parseGoInt (goTrim d) = none) ∨
      (∃ d, env.sysfs.vramTotal = some d ∧ parseGoInt (goTrim d) = some 0)) :
    (GetPerformanceMetrics env).GPUUsage = -1 ∧
    (GetPerformanceMetrics env).GPUMemoryUsedMB = 0 ∧
    (GetPerformanceMetrics env).GPUMemoryTotalMB = 0 := by
  have hmem : getAMDGPUMemory env.sysfs.vramTotal = 0 := by
    rcases h with h0 | ⟨d, hd, hp⟩ | ⟨d, hd, hp⟩ <;> simp [getAMDGPUMemory, *]
  have husage : (getAMDGPUUsage env.sysfs).1 < 0 := by
    unfold getAMDGPUUsage
    rw [hmem]
    norm_num
  exact perfMetrics_gpu_neg env husage

/-- Claim C7, witness: VRAM total absent while both busy-percent files
read plausible figures — the whole GPU metric is still the sentinel. -/
theorem C7_witness :
    (GetPerformanceMetrics ⟨none, none, ⟨none, some "1073741824", some "55", some "60"⟩⟩).GPUUsage = -1 ∧
    (GetPerformanceMetrics ⟨none, none, ⟨none, some "1073741824", some "55", some "60"⟩⟩).GPUMemoryUsedMB = 0 ∧
    (GetPerformanceMetrics ⟨none, none, ⟨none, some "1073741824", some "55", some "60"⟩⟩).GPUMemoryTotalMB = 0 := by
  exact C7_gpu_memory_sentinel ⟨none, none, ⟨none, some "1073741824", some "55", some "60"⟩⟩
    (Or.inl rfl)

/-- Claim C1, counterexample: with an 8 GiB VRAM total and a 1 GiB VRAM
used both readable, and neither busy-percent file readable, the inner
reader does return the memory figures next to the -1 usage — but the
sample reports both GPU memory fields as 0, not the claimed 1024 and
8192 MB. -/
theorem C1_counterexample :
    getAMDGPUUsage ⟨some "8589934592", some "1073741824", none, none⟩ = (-1, 1024, 8192) ∧
    (GetPerformanceMetrics ⟨none, none, ⟨some "8589934592", some "1073741824", none, none⟩⟩).GPUUsage = -1 ∧
    (GetPerformanceMetrics ⟨none, none, ⟨some "8589934592", some "1073741824", none, none⟩⟩).GPUMemoryUsedMB ≠ 1024 ∧
    (GetPerformanceMetrics ⟨none, none, ⟨some "8589934592", some "1073741824", none, none⟩⟩).GPUMemoryTotalMB ≠ 8192 := by
  refine ⟨rfl, rfl, ?_, ?_⟩ <;> decide

/-- Claim C1, amended: when the VRAM-total file is readable and positive
but neither busy-percent file is readable, the inner reader returns the
-1 usage sentinel together with the successfully read memory figures,
yet the sample drops those figures: it reports utilization unavailable
and both GPU memory fields as 0, because the sampler copies the GPU
block only when the usage figure is non-negative. -/
theorem C1_gpu_halves_coupled (env : MetricsEnv) (d : String) (v : ℤ)
    (hd : env.sysfs.vramTotal = some d)
    (hv : parseGoInt (goTrim d) = some v) (hpos : 0 < v)
    (hb1 : env.sysfs.gpuBusy = none) (hb2 : env.sysfs.busy = none) :
    getAMDGPUUsage env.sysfs =
      (-1, Int.tdiv (getAMDGPUMemory env.sysfs.vramUsed) (1024 * 1024),
        Int.tdiv v (1024 * 1024)) ∧
    (GetPerformanceMetrics env).GPUUsage = -1 ∧
    (GetPerformanceMetrics env).GPUMemoryUsedMB = 0 ∧
    (GetPerformanceMetrics env).GPUMemoryTotalMB = 0 := by
  have hmem : getAMDGPUMemory env.sysfs.vramTotal = v := by
    simp [getAMDGPUMemory, hd, hv]
  have hpercent : getAMDGPUUsagePercent env.sysfs = -1 := by
    simp [getAMDGPUUsagePercent, busyPercentLoop, hb1, hb2]
  have htriple : getAMDGPUUsage env.sysfs =
      (-1, Int.tdiv (getAMDGPUMemory env.sysfs.vramUsed) (1024 * 1024),
        Int.tdiv v (1024 * 1024)) := by
    unfold getAMDGPUUsage
    rw [hmem, if_pos hpos, hpercent]
  refine ⟨htriple, ?_⟩
  exact perfMetrics_gpu_neg env (by rw [htriple]; norm_num)

/-- Claim C1, witness: the concrete 8 GiB total / 1 GiB used / no
busy-percent environment instantiates the amended statement. -/
theorem C1_witness :
    getAMDGPUUsage ⟨some "8589934592", some "1073741824", none, none⟩ =
      (-1, Int.tdiv (getAMDGPUMemory (some "1073741824")) (1024 * 1024),
        Int.tdiv 8589934592 (1024 * 1024)) ∧
    (GetPerformanceMetrics ⟨some "cpu 1 1 1 1 1 1 1", none, ⟨some "8589934592", some "1073741824", none, none⟩⟩).GPUUsage = -1 ∧
    (GetPerformanceMetrics ⟨some "cpu 1 1 1 1 1 1 1", none, ⟨some "8589934592", some "1073741824", none, none⟩⟩).GPUMemoryUsedMB = 0 ∧
    (GetPerformanceMetrics ⟨some "cpu 1 1 1 1 1 1 1", none, ⟨some "8589934592", some "1073741824", none, none⟩⟩).GPUMemoryTotalMB = 0 := by
  exact C1_gpu_halves_coupled
    ⟨some "cpu 1 1 1 1 1 1 1", none, ⟨some "8589934592", some "1073741824", none, none⟩⟩
    "8589934592" 8589934592 rfl (by decide) (by decide) rfl rfl

/-- Claim C8, counterexample: the usage formula is computed on a 64-bit
unsigned accumulator, so scaling a well-formed stat line by 2 can wrap
the total and change the reported value.  The first line parses to the
counters (2^62, 2^62, 2^62, 2^61, 0, 0, 0) (usage 600/7); its doubling
parses field-for-field to twice those counters, yet reports usage
200/3. -/
theorem C8_counterexample :
    parseAllUInt ((goFields "cpu 4611686018427387904 4611686018427387904 4611686018427387904 2305843009213693952 0 0 0").drop 1) =
      some [4611686018427387904, 4611686018427387904, 4611686018427387904,
        2305843009213693952, 0, 0, 0] ∧
    parseAllUInt ((goFields "cpu 9223372036854775808 9223372036854775808 9223372036854775808 4611686018427387904 0 0 0").drop 1) =
      some ([4611686018427387904, 4611686018427387904, 4611686018427387904,
        2305843009213693952, 0, 0, 0].map fun v => 2 * v) ∧
    getCPUUsage (some "cpu 4611686018427387904 4611686018427387904 4611686018427387904 2305843009213693952 0 0 0") ≠
      getCPUUsage (some "cpu 9223372036854775808 9223372036854775808 9223372036854775808 4611686018427387904 0 0 0") := by
  refine ⟨by decide, by decide, ?_⟩
  have e1 : getCPUUsage (some "cpu 4611686018427387904 4611686018427387904 4611686018427387904 2305843009213693952 0 0 0") =
      some (cpuRatio 13835058055282163712 16140901064495857664) := rfl
  have e2 : getCPUUsage (some "cpu 9223372036854775808 9223372036854775808 9223372036854775808 4611686018427387904 0 0 0") =
      some (cpuRatio 9223372036854775808 13835058055282163712) := rfl
  rw [e1, e2]
  simp only [ne_eq, Option.some.injEq]
  unfold cpuRatio
  norm_num

/-- Claim C8, amended: the usage value computed from a well-formed stat
line is invariant under scaling every counter by a positive factor,
provided the scaled counters' sum still fits the 64-bit unsigned
accumulator (the original claim omits that proviso, which the wrap-around
counterexample forces). -/
theorem C8_scale_invariance (line scaled : String) (vs : List ℕ) (k : ℕ)
    (hk : 0 < k)
    (hlen : 8 ≤ (goFields line).length)
    (hmark : (goFields line).getD 0 "" = "cpu")
    (hlen2 : 8 ≤ (goFields scaled).length)
    (hmark2 : (goFields scaled).getD 0 "" = "cpu")
    (hv : parseAllUInt ((goFields line).drop 1) = some vs)
    (hv2 : parseAllUInt ((goFields scaled).drop 1) = some (vs.map fun v => k * v))
    (hov : k * vs.sum < 2 ^ 64) :
    getCPUUsage (some line) = getCPUUsage (some scaled) := by
  have hc1 : ¬((goFields line).length < 8 ∨ (goFields line).getD 0 "" ≠ "cpu") := by
    push_neg
    exact ⟨by omega, hmark⟩
  have hc2 : ¬((goFields scaled).length < 8 ∨ (goFields scaled).getD 0 "" ≠ "cpu") := by
    push_neg
    exact ⟨by omega, hmark2⟩
  have hle : vs.sum ≤ k * vs.sum := by
    calc vs.sum = 1 * vs.sum := (one_mul _).symm
      _ ≤ k * vs.sum := Nat.mul_le_mul_right _ hk
  have hsum1 : sumWrap vs = vs.sum := by
    rw [sumWrap_eq_sum_mod]
    exact Nat.mod_eq_of_lt (lt_of_le_of_lt hle hov)
  have hsum2 : sumWrap (vs.map fun v => k * v) = k * vs.sum := by
    rw [sumWrap_eq_sum_mod, sum_map_mul]
    exact Nat.mod_eq_of_lt hov
  have hidle : (vs.map fun v => k * v).getD 3 0 = k * vs.getD 3 0 := getD_map_mul vs k 3
  have hile : vs.getD 3 0 ≤ vs.sum := getD_le_sum vs 3
  simp only [getCPUUsage]
  rw [if_neg hc1, if_neg hc2, hv, hv2]
  simp only [hsum1, hsum2, hidle]
  by_cases hz : vs.sum = 0
  · simp [hz]
  · have hkz : k * vs.sum ≠ 0 := by positivity
    rw [if_neg hz, if_neg hkz]
    have hsub1 : (vs.sum + 2 ^ 64 - vs.getD 3 0) % 2 ^ 64 = vs.sum - vs.getD 3 0 := by
      have h1 : vs.sum + 2 ^ 64 - vs.getD 3 0 = (vs.sum - vs.getD 3 0) + 2 ^ 64 := by omega
      rw [h1, Nat.add_mod_right]
      exact Nat.mod_eq_of_lt (by omega)
    have hmul : k * vs.sum - k * vs.getD 3 0 = k * (vs.sum - vs.getD 3 0) :=
      (Nat.mul_sub k vs.sum (vs.getD 3 0)).symm
    have hsub2 : (k * vs.sum + 2 ^ 64 - k * vs.getD 3 0) % 2 ^ 64 =
        k * (vs.sum - vs.getD 3 0) := by
      have hkle : k * vs.getD 3 0 ≤ k * vs.sum := Nat.mul_le_mul_left k hile
      have h1 : k * vs.sum + 2 ^ 64 - k * vs.getD 3 0 =
          (k * vs.sum - k * vs.getD 3 0) + 2 ^ 64 := by omega
      rw [h1, Nat.add_mod_right, hmul]
      exact Nat.mod_eq_of_lt (by omega)
    rw [hsub1, hsub2]
    have hk0 : (k : ℚ) ≠ 0 := by positivity
    have ha0 : ((vs.sum : ℚ)) ≠ 0 := by exact_mod_cast hz
    unfold cpuRatio
    congr 1
    push_cast [Nat.cast_sub hile]
    rw [mul_div_mul_left _ _ hk0]

/-- Claim C8, witness: a small well-formed line and its doubling, far
from the wrap-around boundary, report the same usage value. -/
theorem C8_witness :
    getCPUUsage (some "cpu 4 3 2 1 0 0 0") = getCPUUsage (some "cpu 8 6 4 2 0 0 0") := by
  exact C8_scale_invariance "cpu 4 3 2 1 0 0 0" "cpu 8 6 4 2 0 0 0"
    [4, 3, 2, 1, 0, 0, 0] 2 (by decide) (by decide) (by decide) (by decide)
    (by decide) (by decide) (by decide) (by decide)

/-- Claim C9: the probe never fails — for every environment the
returned error component is nil — and each failing sub-check degrades:
a failed PCI enumeration leaves both GPU flags false, the vendor
unknown, the model empty and the memory zero; a missing meminfo
pseudo-file leaves system memory 0; a failed kernel-version command
reports "unknown"; an absent container runtime reports false; and with
no rocminfo binary and a failed module listing the accelerator stack
reports false. -/
theorem C9_probe_never_fails (env : ProbeEnv) :
    (GetSystemInfo env).2 = none ∧
    (GetSystemInfo env).1.HasDocker = env.dockerOk ∧
    (env.lspci = none →
      (GetSystemInfo env).1.HasNVIDIA = false ∧
      (GetSystemInfo env).1.HasAMDGPU = false ∧
      (GetSystemInfo env).1.GPUType = "unknown" ∧
      (GetSystemInfo env).1.GPUModel = "" ∧
      (GetSystemInfo env).1.GPUMemory = 0) ∧
    (env.meminfo = none → (GetSystemInfo env).1.SystemMemory = 0) ∧
    (env.uname = none → (GetSystemInfo env).1.KernelVersion = "unknown") ∧
    (env.rocmPathExists "/opt/rocm/bin/rocminfo" = false →
      env.rocmPathExists "/usr/bin/rocminfo" = false →
      env.lsmod = none → (GetSystemInfo env).1.HasROCm = false) := by
  refine ⟨rfl, ?_, ?_, ?_, ?_, ?_⟩
  · unfold GetSystemInfo
    dsimp only
    split_ifs <;> rfl
  · intro h
    have hn : checkNVIDIAGPU env = (false, "", 0) := by simp [checkNVIDIAGPU, h]
    have ha : checkAMDGPU env = (false, "", 0) := by simp [checkAMDGPU, h]
    unfold GetSystemInfo
    rw [hn, ha]
    simp
  · intro h
    unfold GetSystemInfo
    dsimp only
    split_ifs <;> simp [getSystemMemory, h]
  · intro h
    unfold GetSystemInfo
    dsimp only
    split_ifs <;> simp [getKernelVersion, h]
  · intro h1 h2 h3
    have hr : checkROCm env = false := by simp [checkROCm, h1, h2, h3]
    unfold GetSystemInfo
    dsimp only
    split_ifs <;> simp [hr]

/-- Claim C9, witness: in the environment where every command fails and
every pseudo-file is unreadable, the probe still returns a nil error and
the fully degraded profile. -/
theorem C9_witness :
    (GetSystemInfo ⟨false, none, none, ⟨none, fun _ => none⟩,
      fun _ => false, fun _ => false, none, none, none⟩).2 = none ∧
    (GetSystemInfo ⟨false, none, none, ⟨none, fun _ => none⟩,
      fun _ => false, fun _ => false, none, none, none⟩).1.HasDocker = false ∧
    (GetSystemInfo ⟨false, none, none, ⟨none, fun _ => none⟩,
      fun _ => false, fun _ => false, none, none, none⟩).1.GPUType = "unknown" ∧
    (GetSystemInfo ⟨false, none, none, ⟨none, fun _ => none⟩,
      fun _ => false, fun _ => false, none, none, none⟩).1.SystemMemory = 0 ∧
    (GetSystemInfo ⟨false, none, none, ⟨none, fun _ => none⟩,
      fun _ => false, fun _ => false, none, none, none⟩).1.KernelVersion = "unknown" ∧
    (GetSystemInfo ⟨false, none, none, ⟨none, fun _ => none⟩,
      fun _ => false, fun _ => false, none, none, none⟩).1.HasROCm = false := by
  obtain ⟨h1, h2, h3, h4, h5, h6⟩ := C9_probe_never_fails
    ⟨false, none, none, ⟨none, fun _ => none⟩,
      fun _ => false, fun _ => false, none, none, none⟩
  exact ⟨h1, h2, (h3 rfl).2.2.1, h4 rfl, h5 rfl, h6 rfl rfl rfl⟩

end LiteLLM
